import Mathlib

/-!
Shallow embedding of the SafeLabs dashboard classification core
(src/dashboard/dashboard.py): the staleness detector is_sensor_online
(lines 188-212), the threshold classifier / status aggregator analyze_data
(lines 215-254), the fetch wrapper get_latest_data (lines 108-116) and the
all-labs summary loop in main (lines 287-304).

Python dynamic values are modelled by PyVal (ints, floats, booleans and
strings); a reading is an association list of field names to values, and a
possibly-absent reading is an Option of that.  Python comparisons between a
string and a number raise TypeError, which is modelled in the Except monad.
Rational numbers stand in for Python floats: the classifier only compares
values (it never does arithmetic on metric values), and comparisons of
float-representable rationals agree with the float comparisons.
-/

namespace SafeLabs

/-- Python runtime values that can occur in a sensor reading.  A Python bool
is a subtype of int and compares as 0 or 1. -/
inductive PyVal : Type where
  | int (n : ℤ)
  | float (q : ℚ)
  | bool (b : Bool)
  | str (s : String)
deriving DecidableEq, Repr

/-- Python exceptions relevant to this code: comparisons and arithmetic
between a string and a number raise TypeError. -/
inductive PyErr : Type where
  | typeError
deriving DecidableEq, Repr

/-- A Python dict holding a sensor reading: field name to value. -/
abbrev PyDict := List (String × PyVal)

/-- Membership test for a key, as the Python expression k in data. -/
def hasKey (d : PyDict) (k : String) : Bool :=
  d.any (fun kv => kv.1 == k)

/-- The Python expression data.get(k, dflt). -/
def pyGet (d : PyDict) (k : String) (dflt : PyVal) : PyVal :=
  match d.find? (fun kv => kv.1 == k) with
  | some kv => kv.2
  | none => dflt

/-- Python truthiness of a possibly-absent dict: None and the empty dict are
falsy, as tested by the statement if not data. -/
def truthy : Option PyDict → Bool
  | none => false
  | some d => !d.isEmpty

/-- Numeric view of a PyVal: ints, floats and bools are numbers (True is 1,
False is 0); strings are not. -/
def toRatVal : PyVal → Option ℚ
  | .int n => some (n : ℚ)
  | .float q => some q
  | .bool b => some (if b then 1 else 0)
  | .str _ => none

/-- Whether a PyVal is an int-like value (int or bool) in Python terms. -/
def isIntLike : PyVal → Bool
  | .int _ => true
  | .bool _ => true
  | _ => false

/-- The Python comparison a > b: numeric against numeric compares values,
string against string is lexicographic, a mixed pair raises TypeError. -/
def pyGT (a b : PyVal) : Except PyErr Bool :=
  match toRatVal a, toRatVal b with
  | some x, some y => .ok (decide (y < x))
  | _, _ =>
    match a, b with
    | .str s, .str t => .ok (decide (t < s))
    | _, _ => .error .typeError

/-- The Python comparison a < b. -/
def pyLT (a b : PyVal) : Except PyErr Bool :=
  match toRatVal a, toRatVal b with
  | some x, some y => .ok (decide (x < y))
  | _, _ =>
    match a, b with
    | .str s, .str t => .ok (decide (s < t))
    | _, _ => .error .typeError

/-- The Python comparison a <= b. -/
def pyLE (a b : PyVal) : Except PyErr Bool :=
  match toRatVal a, toRatVal b with
  | some x, some y => .ok (decide (x ≤ y))
  | _, _ =>
    match a, b with
    | .str s, .str t => .ok (decide (s < t ∨ s = t))
    | _, _ => .error .typeError

/-- Difference of two rationals, written through mkRat so that it evaluates
by kernel reduction; ratSub_eq proves it equal to subtraction on ℚ. -/
def ratSub (x y : ℚ) : ℚ :=
  mkRat (x.num * (y.den : ℤ) - y.num * (x.den : ℤ)) (x.den * y.den)

/-- The Python subtraction a - b: int-like minus int-like gives an int,
any float operand gives a float, a string operand raises TypeError. -/
def pySub (a b : PyVal) : Except PyErr PyVal :=
  match toRatVal a, toRatVal b with
  | some x, some y =>
    if isIntLike a && isIntLike b then .ok (.int (ratSub x y).num)
    else .ok (.float (ratSub x y))
  | _, _ => .error .typeError

/-- Python short-circuit or over two boolean expressions: the right operand
is only evaluated (so only its error surfaces) when the left is false. -/
def pyOr (x y : Except PyErr Bool) : Except PyErr Bool := do
  let b ← x
  if b then pure true else y

/-- Exponent of the prime p in n, computed with explicit fuel. -/
def expOfAux : ℕ → ℕ → ℕ → ℕ
  | 0, _, _ => 0
  | fuel + 1, p, n =>
    if 2 ≤ p ∧ n ≠ 0 ∧ n % p = 0 then expOfAux fuel p (n / p) + 1 else 0

/-- Exponent of the prime p in n. -/
def expOf (p n : ℕ) : ℕ := expOfAux n p n

/-- Rendering of a Python float by str(), for floats whose value has a
terminating decimal expansion (every IEEE float does): minimal number of
fractional digits, at least one, as in 35.0 or 30.05.  Rationals without a
terminating expansion cannot arise from a Python float; for totality they
are rendered through the same formula (truncated). -/
def floatRepr (q : ℚ) : String :=
  let sgn := if q < 0 then "-" else ""
  let r := |q|
  let k := max (max (expOf 2 r.den) (expOf 5 r.den)) 1
  let digits := r.num.toNat * 10 ^ k / r.den
  let ip := digits / 10 ^ k
  let fr := digits % 10 ^ k
  let frs := toString fr
  sgn ++ toString ip ++ "." ++ String.mk (List.replicate (k - frs.length) '0') ++ frs

/-- Rendering of a PyVal inside a Python f-string. -/
def pyStrOf : PyVal → String
  | .int n => toString n
  | .float q => floatRepr q
  | .bool b => if b then "True" else "False"
  | .str s => s

/-- Reason string for a critical temperature, line 234 of dashboard.py. -/
def critTempMsg (v : PyVal) : String :=
  "Critical Temperature: " ++ pyStrOf v ++ "¬∞C"

/-- Reason string for a temperature warning, line 236 of dashboard.py. -/
def warnTempMsg (v : PyVal) : String :=
  "Temperature Warning: " ++ pyStrOf v ++ "¬∞C"

/-- Reason string for critical humidity, line 239 of dashboard.py. -/
def critHumMsg (v : PyVal) : String :=
  "Critical Humidity: " ++ pyStrOf v ++ "%"

/-- Reason string for a humidity warning, line 241 of dashboard.py. -/
def warnHumMsg (v : PyVal) : String :=
  "Humidity Warning: " ++ pyStrOf v ++ "%"

/-- Reason string for a dangerous gas level, line 244 of dashboard.py. -/
def critGasMsg (v : PyVal) : String :=
  "Dangerous Gas Level: " ++ pyStrOf v ++ " ppm"

/-- Reason string for an elevated gas level, line 246 of dashboard.py. -/
def warnGasMsg (v : PyVal) : String :=
  "Elevated Gas Level: " ++ pyStrOf v ++ " ppm"

/-- Body of is_sensor_online inside its try block (lines 193-210): the
timestamp heuristic, the age comparison, and the field-presence fallback.
The wall clock int(time.time()) is passed in explicitly as now. -/
def isOnlineBody (now : ℤ) (d : PyDict) (timeout : PyVal) : Except PyErr Bool := do
  if hasKey d "timestamp" then
    let data_timestamp := pyGet d "timestamp" (.int 0)
    let current_time := PyVal.int now
    let b ← pyGT data_timestamp (.int 1000000000)
    if b then
      let age_seconds ← pySub current_time data_timestamp
      pyLE age_seconds timeout
    else
      pure true
  else
    pure (hasKey d "temperature" || hasKey d "humidity")

/-- The staleness detector is_sensor_online (lines 188-212): absent or empty
data is offline; otherwise the body runs under a bare except that turns any
exception into True (fail open). -/
def is_sensor_online (now : ℤ) (data : Option PyDict)
    (timeout_seconds : PyVal := .int 30) : Bool :=
  match data with
  | none => false
  | some d =>
    if d.isEmpty then false
    else
      match isOnlineBody now d timeout_seconds with
      | .ok b => b
      | .error _ => true

/-- The temperature branch of the classifier (lines 233-236): critical when
temp > 30 or temp < 10, else warning when temp > 26 or temp < 18. -/
def temp_check (temp : PyVal) : Except PyErr (List String × List String) := do
  let c ← pyOr (pyGT temp (.int 30)) (pyLT temp (.int 10))
  if c then pure ([critTempMsg temp], [])
  else do
    let w ← pyOr (pyGT temp (.int 26)) (pyLT temp (.int 18))
    pure ([], if w then [warnTempMsg temp] else [])

/-- The humidity branch of the classifier (lines 238-241): critical when
humidity > 70 or humidity < 20, else warning when humidity > 60 or < 30. -/
def hum_check (humidity : PyVal) : Except PyErr (List String × List String) := do
  let c ← pyOr (pyGT humidity (.int 70)) (pyLT humidity (.int 20))
  if c then pure ([critHumMsg humidity], [])
  else do
    let w ← pyOr (pyGT humidity (.int 60)) (pyLT humidity (.int 30))
    pure ([], if w then [warnHumMsg humidity] else [])

/-- The gas branch of the classifier (lines 243-246): critical when
gas_ppm > 800, else warning when gas_ppm > 500. -/
def gas_check (gas_ppm : PyVal) : Except PyErr (List String × List String) := do
  let c ← pyGT gas_ppm (.int 800)
  if c then pure ([critGasMsg gas_ppm], [])
  else do
    let w ← pyGT gas_ppm (.int 500)
    pure ([], if w then [warnGasMsg gas_ppm] else [])

/-- The three metric branches in source order (lines 229-246), accumulating
the critical_issues and warnings lists. -/
def checks (temp humidity gas_ppm : PyVal) :
    Except PyErr (List String × List String) := do
  let (c1, w1) ← temp_check temp
  let (c2, w2) ← hum_check humidity
  let (c3, w3) ← gas_check gas_ppm
  pure (c1 ++ c2 ++ c3, w1 ++ w2 ++ w3)

/-- The overall-status selection (lines 248-254): a nonempty critical list
wins, then a nonempty warning list, else SAFE. -/
def status_of (cw : List String × List String) : String × String × String :=
  if !cw.1.isEmpty then
    ("CRITICAL", String.intercalate " | " cw.1, "red")
  else if !cw.2.isEmpty then
    ("WARNING", String.intercalate " | " cw.2, "orange")
  else
    ("SAFE", "All parameters within safe range", "green")

/-- The metric extraction data.get('temperature', 0) on line 224. -/
def tempVal (d : PyDict) : PyVal := pyGet d "temperature" (.int 0)

/-- The metric extraction data.get('humidity', 0) on line 225. -/
def humVal (d : PyDict) : PyVal := pyGet d "humidity" (.int 0)

/-- The metric extraction data.get('gas_ppm', 0) on line 226. -/
def gasVal (d : PyDict) : PyVal := pyGet d "gas_ppm" (.int 0)

/-- The threshold-classification part of analyze_data (lines 224-254),
applied to a present, online reading.  The motion flag is fetched on line
227 but never used by the classification. -/
def classify (d : PyDict) : Except PyErr (String × String × String) := do
  let temp := tempVal d
  let humidity := humVal d
  let gas_ppm := gasVal d
  let _motion := pyGet d "motion_detected" (.bool false)
  let cw ← checks temp humidity gas_ppm
  pure (status_of cw)

/-- The aggregator analyze_data (lines 215-254): UNKNOWN for absent data,
OFFLINE when is_sensor_online (at its default 30 second timeout) is false,
otherwise the threshold classification.  The classifier body has no
try/except, so a TypeError from a comparison propagates as an error. -/
def analyze_data (now : ℤ) (data : Option PyDict) :
    Except PyErr (String × String × String) :=
  match data with
  | none => .ok ("UNKNOWN", "No data available", "gray")
  | some d =>
    if d.isEmpty then .ok ("UNKNOWN", "No data available", "gray")
    else if !is_sensor_online now (some d) then
      .ok ("OFFLINE", "Sensor not responding - simulator may be stopped", "gray")
    else
      classify d

/-- The fetch wrapper get_latest_data (lines 108-116): a store exception is
caught and turned into None. -/
def get_latest_data (store : String → Except PyErr (Option PyDict))
    (device_id : String) : Option PyDict :=
  match store device_id with
  | .ok d => d
  | .error _ => none

/-- One iteration of the all-labs sidebar loop (lines 287-304): a truthy
reading is classified and its status shown, a falsy one is shown OFFLINE. -/
def lab_row (store : String → Except PyErr (Option PyDict)) (now : ℤ)
    (lab_id : String) : Except PyErr (String × String) :=
  let lab_data := get_latest_data store lab_id
  if truthy lab_data then do
    let (status, _, _) ← analyze_data now lab_data
    pure (lab_id, status)
  else
    pure (lab_id, "OFFLINE")

/-- The all-labs summary loop (lines 287-304): one row per lab id, in order;
an uncaught exception in one iteration aborts the loop, as in Python. -/
def all_labs_status (store : String → Except PyErr (Option PyDict)) (now : ℤ)
    (lab_ids : List String) : Except PyErr (List (String × String)) :=
  lab_ids.mapM (lab_row store now)

/-- Decidable equality of Except values, needed to evaluate the model on
concrete inputs. -/
instance {ε α : Type} [DecidableEq ε] [DecidableEq α] : DecidableEq (Except ε α) := fun a b =>
  match a, b with
  | .ok x, .ok y =>
    if h : x = y then .isTrue (by rw [h]) else .isFalse (by intro hc; cases hc; exact h rfl)
  | .error e, .error f =>
    if h : e = f then .isTrue (by rw [h]) else .isFalse (by intro hc; cases hc; exact h rfl)
  | .ok x, .error f => .isFalse (by intro hc; cases hc)
  | .error e, .ok y => .isFalse (by intro hc; cases hc)

/-- The computable difference ratSub agrees with subtraction on ℚ. -/
theorem ratSub_eq (x y : ℚ) : ratSub x y = x - y := by
  unfold ratSub
  rw [Rat.mkRat_eq_div]
  push_cast
  have hx : ((x.den : ℚ)) ≠ 0 := by exact_mod_cast x.den_nz
  have hy : ((y.den : ℚ)) ≠ 0 := by exact_mod_cast y.den_nz
  conv_rhs => rw [← Rat.num_div_den x, ← Rat.num_div_den y]
  rw [div_sub_div _ _ hx hy]
  ring_nf

/-- Bind of a successful Except computation. -/
theorem okBind {α β : Type} (a : α) (f : α → Except PyErr β) :
    (Except.ok a >>= f : Except PyErr β) = f a := rfl

/-- The pure of the Except monad is ok. -/
theorem purePy {α : Type} (a : α) : (pure a : Except PyErr α) = .ok a := rfl

/-- Evaluation of a Python greater-than against an int constant when the left
operand is numeric. -/
theorem pyGT_num_left {v : PyVal} {x : ℚ} (h : toRatVal v = some x) (n : ℤ) :
    pyGT v (.int n) = .ok (decide ((n : ℚ) < x)) := by
  unfold pyGT
  rw [h]
  rfl

/-- Evaluation of a Python less-than against an int constant when the left
operand is numeric. -/
theorem pyLT_num_left {v : PyVal} {x : ℚ} (h : toRatVal v = some x) (n : ℤ) :
    pyLT v (.int n) = .ok (decide (x < (n : ℚ))) := by
  unfold pyLT
  rw [h]
  rfl

/-- Evaluation of a Python less-or-equal against an int constant when the
left operand is numeric. -/
theorem pyLE_num_left {v : PyVal} {x : ℚ} (h : toRatVal v = some x) (n : ℤ) :
    pyLE v (.int n) = .ok (decide (x ≤ (n : ℚ))) := by
  unfold pyLE
  rw [h]
  rfl

/-- Short-circuit or of two successful boolean computations. -/
theorem pyOr_ok (a b : Bool) : pyOr (.ok a) (.ok b) = .ok (a || b) := by
  cases a <;> rfl

/-- An int-like PyVal carries an integral rational value. -/
theorem den_one_of_isIntLike {v : PyVal} {x : ℚ} (hi : isIntLike v = true)
    (h : toRatVal v = some x) : x.den = 1 := by
  cases v with
  | int n => cases h; simp
  | bool b => cases b <;> cases h <;> simp
  | float q => cases hi
  | str s => cases hi

/-- Python subtraction of two numeric values succeeds and yields their
rational difference. -/
theorem pySub_num {a b : PyVal} {x y : ℚ} (ha : toRatVal a = some x)
    (hb : toRatVal b = some y) :
    ∃ v, pySub a b = .ok v ∧ toRatVal v = some (x - y) := by
  unfold pySub
  rw [ha, hb]
  dsimp only
  by_cases hi : isIntLike a && isIntLike b
  · rw [if_pos hi]
    refine ⟨.int (ratSub x y).num, rfl, ?_⟩
    have hix := den_one_of_isIntLike (Bool.and_elim_left hi) ha
    have hiy := den_one_of_isIntLike (Bool.and_elim_right hi) hb
    have hden : (x - y).den = 1 := by
      have hx1 : x = (x.num : ℚ) := ((Rat.den_eq_one_iff x).mp hix).symm
      have hy1 : y = (y.num : ℚ) := ((Rat.den_eq_one_iff y).mp hiy).symm
      rw [hx1, hy1, ← Int.cast_sub, Rat.den_intCast]
    have : (((x - y).num : ℚ)) = x - y := (Rat.den_eq_one_iff (x - y)).mp hden
    simp [toRatVal, ratSub_eq, this]
  · rw [if_neg hi]
    exact ⟨.float (ratSub x y), rfl, by simp [toRatVal, ratSub_eq]⟩

/-- A key that is not in the dict makes data.get return the default. -/
theorem pyGet_of_not_hasKey {d : PyDict} {k : String} (dflt : PyVal)
    (h : hasKey d k = false) : pyGet d k dflt = dflt := by
  unfold pyGet
  cases hf : d.find? (fun kv => kv.1 == k) with
  | none => rfl
  | some kv =>
    exfalso
    have hp := List.find?_some hf
    have hm := List.mem_of_find?_eq_some hf
    have : d.any (fun kv => kv.1 == k) = true := List.any_eq_true.mpr ⟨kv, hm, hp⟩
    rw [hasKey] at h
    rw [h] at this
    cases this

/-- Characterization of the staleness detector when a numeric timestamp
field is present: the Unix-epoch branch compares the age to the timeout,
the boot-counter branch returns true. -/
theorem is_sensor_online_ts {now : ℤ} {d : PyDict} {ts : ℚ} {timeout : ℤ}
    (hne : d.isEmpty = false) (hk : hasKey d "timestamp" = true)
    (hts : toRatVal (pyGet d "timestamp" (.int 0)) = some ts) :
    is_sensor_online now (some d) (.int timeout) =
      if (1000000000 : ℚ) < ts then decide ((now : ℚ) - ts ≤ (timeout : ℚ))
      else true := by
  unfold is_sensor_online isOnlineBody
  dsimp only
  rw [hne, hk]
  simp only [Bool.false_eq_true, if_false, if_true]
  rw [pyGT_num_left hts 1000000000, okBind]
  push_cast
  by_cases h9 : (1000000000 : ℚ) < ts
  · obtain ⟨v, hv, hvr⟩ := pySub_num (show toRatVal (.int now) = some (now : ℚ) from rfl) hts
    simp [h9, hv, okBind, pyLE_num_left hvr timeout]
  · simp [h9, purePy]

/-- Characterization of the staleness detector when no timestamp field
exists: fall back to the presence of a temperature or humidity field. -/
theorem is_sensor_online_no_ts {now : ℤ} {d : PyDict} (timeout : PyVal)
    (hne : d.isEmpty = false) (hk : hasKey d "timestamp" = false) :
    is_sensor_online now (some d) timeout =
      (hasKey d "temperature" || hasKey d "humidity") := by
  unfold is_sensor_online isOnlineBody
  dsimp only
  rw [hne, hk]
  rfl

/-- The critical_issues list produced by the threshold checks, characterized
by the threshold conditions on the numeric metric values. -/
def crit_list (t h g : PyVal) (tx hx gx : ℚ) : List String :=
  (if 30 < tx ∨ tx < 10 then [critTempMsg t] else []) ++
  (if 70 < hx ∨ hx < 20 then [critHumMsg h] else []) ++
  (if 800 < gx then [critGasMsg g] else [])

/-- The warnings list produced by the threshold checks, characterized by the
threshold conditions on the numeric metric values: a warning fires only when
the critical condition of the same metric did not. -/
def warn_list (t h g : PyVal) (tx hx gx : ℚ) : List String :=
  (if ¬(30 < tx ∨ tx < 10) ∧ (26 < tx ∨ tx < 18) then [warnTempMsg t] else []) ++
  (if ¬(70 < hx ∨ hx < 20) ∧ (60 < hx ∨ hx < 30) then [warnHumMsg h] else []) ++
  (if ¬(800 < gx) ∧ 500 < gx then [warnGasMsg g] else [])

/-- Evaluation of the temperature branch on a numeric value. -/
theorem temp_check_num {v : PyVal} {x : ℚ} (h : toRatVal v = some x) :
    temp_check v = .ok (if 30 < x ∨ x < 10 then ([critTempMsg v], [])
      else ([], if 26 < x ∨ x < 18 then [warnTempMsg v] else [])) := by
  unfold temp_check
  rw [pyGT_num_left h, pyLT_num_left h, pyGT_num_left h, pyLT_num_left h, pyOr_ok, pyOr_ok]
  simp only [okBind, purePy, Bool.or_eq_true, decide_eq_true_eq]
  by_cases hc : (30 : ℚ) < x ∨ x < 10 <;> by_cases hw : (26 : ℚ) < x ∨ x < 18 <;>
    simp [hc, hw]

/-- Evaluation of the humidity branch on a numeric value. -/
theorem hum_check_num {v : PyVal} {x : ℚ} (h : toRatVal v = some x) :
    hum_check v = .ok (if 70 < x ∨ x < 20 then ([critHumMsg v], [])
      else ([], if 60 < x ∨ x < 30 then [warnHumMsg v] else [])) := by
  unfold hum_check
  rw [pyGT_num_left h, pyLT_num_left h, pyGT_num_left h, pyLT_num_left h, pyOr_ok, pyOr_ok]
  simp only [okBind, purePy, Bool.or_eq_true, decide_eq_true_eq]
  by_cases hc : (70 : ℚ) < x ∨ x < 20 <;> by_cases hw : (60 : ℚ) < x ∨ x < 30 <;>
    simp [hc, hw]

/-- Evaluation of the gas branch on a numeric value. -/
theorem gas_check_num {v : PyVal} {x : ℚ} (h : toRatVal v = some x) :
    gas_check v = .ok (if 800 < x then ([critGasMsg v], [])
      else ([], if 500 < x then [warnGasMsg v] else [])) := by
  unfold gas_check
  rw [pyGT_num_left h, pyGT_num_left h]
  simp only [okBind, purePy, decide_eq_true_eq]
  by_cases hc : (800 : ℚ) < x <;> by_cases hw : (500 : ℚ) < x <;>
    simp [hc, hw]

/-- Evaluation of the three metric branches on numeric values. -/
theorem checks_num {t h g : PyVal} {tx hx gx : ℚ}
    (ht : toRatVal t = some tx) (hh : toRatVal h = some hx)
    (hg : toRatVal g = some gx) :
    checks t h g = .ok (crit_list t h g tx hx gx, warn_list t h g tx hx gx) := by
  unfold checks crit_list warn_list
  rw [temp_check_num ht, hum_check_num hh, gas_check_num hg]
  simp only [okBind, purePy]
  by_cases c1 : (30 : ℚ) < tx ∨ tx < 10 <;> by_cases w1 : (26 : ℚ) < tx ∨ tx < 18 <;>
  by_cases c2 : (70 : ℚ) < hx ∨ hx < 20 <;> by_cases w2 : (60 : ℚ) < hx ∨ hx < 30 <;>
  by_cases c3 : (800 : ℚ) < gx <;> by_cases w3 : (500 : ℚ) < gx <;>
    simp [c1, w1, c2, w2, c3, w3]

/-- Evaluation of the classifier on a dict whose metric values are numeric
(or absent, in which case the default 0 is used). -/
theorem classify_num {d : PyDict} {tx hx gx : ℚ}
    (ht : toRatVal (tempVal d) = some tx) (hh : toRatVal (humVal d) = some hx)
    (hg : toRatVal (gasVal d) = some gx) :
    classify d = .ok (status_of
      (crit_list (tempVal d) (humVal d) (gasVal d) tx hx gx,
       warn_list (tempVal d) (humVal d) (gasVal d) tx hx gx)) := by
  unfold classify
  dsimp only
  rw [checks_num ht hh hg]
  rfl

/-- The aggregator on a present, online reading delegates to the
classifier. -/
theorem analyze_data_online {now : ℤ} {d : PyDict} (hne : d.isEmpty = false)
    (hon : is_sensor_online now (some d) = true) :
    analyze_data now (some d) = classify d := by
  unfold analyze_data
  dsimp only
  rw [hne, hon]
  rfl

/-- The aggregator on a present reading that the staleness detector rejects
returns the OFFLINE triple. -/
theorem analyze_data_offline {now : ℤ} {d : PyDict} (hne : d.isEmpty = false)
    (hon : is_sensor_online now (some d) = false) :
    analyze_data now (some d) =
      .ok ("OFFLINE", "Sensor not responding - simulator may be stopped", "gray") := by
  unfold analyze_data
  dsimp only
  rw [hne, hon]
  rfl

/-- Status selection when the critical list is nonempty. -/
theorem status_of_crit {c w : List String} (h : c ≠ []) :
    status_of (c, w) = ("CRITICAL", String.intercalate " | " c, "red") := by
  unfold status_of
  simp [h]

/-- Status selection when the critical list is empty and the warning list is
nonempty. -/
theorem status_of_warn {c w : List String} (hc : c = []) (hw : w ≠ []) :
    status_of (c, w) = ("WARNING", String.intercalate " | " w, "orange") := by
  unfold status_of
  simp [hc, hw]

/-- Status selection when both lists are empty. -/
theorem status_of_safe {c w : List String} (hc : c = []) (hw : w = []) :
    status_of (c, w) = ("SAFE", "All parameters within safe range", "green") := by
  unfold status_of
  simp [hc, hw]

/-- The critical list is empty exactly when no critical condition holds. -/
theorem crit_list_eq_nil_iff {t h g : PyVal} {tx hx gx : ℚ} :
    crit_list t h g tx hx gx = [] ↔
      ¬((30 < tx ∨ tx < 10) ∨ (70 < hx ∨ hx < 20) ∨ 800 < gx) := by
  unfold crit_list
  by_cases c1 : (30 : ℚ) < tx ∨ tx < 10 <;> by_cases c2 : (70 : ℚ) < hx ∨ hx < 20 <;>
  by_cases c3 : (800 : ℚ) < gx <;> simp [c1, c2, c3]

/-- The warning list is empty exactly when no metric is in its
warning-but-not-critical band. -/
theorem warn_list_eq_nil_iff {t h g : PyVal} {tx hx gx : ℚ} :
    warn_list t h g tx hx gx = [] ↔
      ¬((¬(30 < tx ∨ tx < 10) ∧ (26 < tx ∨ tx < 18)) ∨
        (¬(70 < hx ∨ hx < 20) ∧ (60 < hx ∨ hx < 30)) ∨
        (¬(800 < gx) ∧ 500 < gx)) := by
  unfold warn_list
  by_cases w1 : ¬((30 : ℚ) < tx ∨ tx < 10) ∧ ((26 : ℚ) < tx ∨ tx < 18) <;>
  by_cases w2 : ¬((70 : ℚ) < hx ∨ hx < 20) ∧ ((60 : ℚ) < hx ∨ hx < 30) <;>
  by_cases w3 : ¬((800 : ℚ) < gx) ∧ (500 : ℚ) < gx <;> simp [w1, w2, w3]

/-- Lists that differ at a position below both prefixes are not equal as
appends. -/
theorem list_append_ne (a b x y : List Char) (i : ℕ) (ha : i < a.length)
    (hb : i < b.length) (h : a.get ⟨i, ha⟩ ≠ b.get ⟨i, hb⟩) : a ++ x ≠ b ++ y := by
  intro he
  have h1 : (a ++ x).get? i = (b ++ y).get? i := by rw [he]
  rw [List.get?_append ha, List.get?_append hb, List.get?_eq_get ha,
    List.get?_eq_get hb] at h1
  exact h (Option.some.inj h1)

/-- Two prefix-value-suffix messages with different characters at some
position of their prefixes are different strings. -/
theorem msg_ne (pa sa pb sb va vb : String) (i : ℕ)
    (ha : i < pa.data.length) (hb : i < pb.data.length)
    (h : pa.data.get ⟨i, ha⟩ ≠ pb.data.get ⟨i, hb⟩) :
    pa ++ va ++ sa ≠ pb ++ vb ++ sb := by
  intro he
  have hd : (pa ++ va ++ sa).data = (pb ++ vb ++ sb).data := by rw [he]
  rw [String.data_append, String.data_append, String.data_append,
    String.data_append, List.append_assoc, List.append_assoc] at hd
  exact list_append_ne _ _ _ _ i ha hb h hd

/-- The two critical messages for temperature and humidity differ (their
prefixes differ at position 9). -/
theorem critTemp_ne_critHum (v w : PyVal) : critTempMsg v ≠ critHumMsg w :=
  msg_ne _ _ _ _ _ _ 9 (by decide) (by decide) (by decide)

/-- Critical temperature and gas messages differ at their first character. -/
theorem critTemp_ne_critGas (v w : PyVal) : critTempMsg v ≠ critGasMsg w :=
  msg_ne _ _ _ _ _ _ 0 (by decide) (by decide) (by decide)

/-- Critical humidity and gas messages differ at their first character. -/
theorem critHum_ne_critGas (v w : PyVal) : critHumMsg v ≠ critGasMsg w :=
  msg_ne _ _ _ _ _ _ 0 (by decide) (by decide) (by decide)

/-- Temperature and humidity warnings differ at their first character. -/
theorem warnTemp_ne_warnHum (v w : PyVal) : warnTempMsg v ≠ warnHumMsg w :=
  msg_ne _ _ _ _ _ _ 0 (by decide) (by decide) (by decide)

/-- Temperature and gas warnings differ at their first character. -/
theorem warnTemp_ne_warnGas (v w : PyVal) : warnTempMsg v ≠ warnGasMsg w :=
  msg_ne _ _ _ _ _ _ 0 (by decide) (by decide) (by decide)

/-- Humidity and gas warnings differ at their first character. -/
theorem warnHum_ne_warnGas (v w : PyVal) : warnHumMsg v ≠ warnGasMsg w :=
  msg_ne _ _ _ _ _ _ 0 (by decide) (by decide) (by decide)

/-- Critical temperature messages differ from every warning message at the
first character. -/
theorem critTemp_ne_warnTemp (v w : PyVal) : critTempMsg v ≠ warnTempMsg w :=
  msg_ne _ _ _ _ _ _ 0 (by decide) (by decide) (by decide)

/-- Critical temperature and humidity-warning messages differ. -/
theorem critTemp_ne_warnHum (v w : PyVal) : critTempMsg v ≠ warnHumMsg w :=
  msg_ne _ _ _ _ _ _ 0 (by decide) (by decide) (by decide)

/-- Critical temperature and gas-warning messages differ. -/
theorem critTemp_ne_warnGas (v w : PyVal) : critTempMsg v ≠ warnGasMsg w :=
  msg_ne _ _ _ _ _ _ 0 (by decide) (by decide) (by decide)

/-- Critical humidity and temperature-warning messages differ. -/
theorem critHum_ne_warnTemp (v w : PyVal) : critHumMsg v ≠ warnTempMsg w :=
  msg_ne _ _ _ _ _ _ 0 (by decide) (by decide) (by decide)

/-- Critical humidity and humidity-warning messages differ. -/
theorem critHum_ne_warnHum (v w : PyVal) : critHumMsg v ≠ warnHumMsg w :=
  msg_ne _ _ _ _ _ _ 0 (by decide) (by decide) (by decide)

/-- Critical humidity and gas-warning messages differ. -/
theorem critHum_ne_warnGas (v w : PyVal) : critHumMsg v ≠ warnGasMsg w :=
  msg_ne _ _ _ _ _ _ 0 (by decide) (by decide) (by decide)

/-- Critical gas and temperature-warning messages differ. -/
theorem critGas_ne_warnTemp (v w : PyVal) : critGasMsg v ≠ warnTempMsg w :=
  msg_ne _ _ _ _ _ _ 0 (by decide) (by decide) (by decide)

/-- Critical gas and humidity-warning messages differ. -/
theorem critGas_ne_warnHum (v w : PyVal) : critGasMsg v ≠ warnHumMsg w :=
  msg_ne _ _ _ _ _ _ 0 (by decide) (by decide) (by decide)

/-- Critical gas and gas-warning messages differ. -/
theorem critGas_ne_warnGas (v w : PyVal) : critGasMsg v ≠ warnGasMsg w :=
  msg_ne _ _ _ _ _ _ 0 (by decide) (by decide) (by decide)

/-- Every member of the critical list is one of the three critical
messages. -/
theorem mem_crit_list {t h g : PyVal} {tx hx gx : ℚ} {s : String}
    (hs : s ∈ crit_list t h g tx hx gx) :
    s = critTempMsg t ∨ s = critHumMsg h ∨ s = critGasMsg g := by
  unfold crit_list at hs
  split_ifs at hs <;> simp_all <;> tauto

/-- Every member of the warning list is one of the three warning
messages. -/
theorem mem_warn_list {t h g : PyVal} {tx hx gx : ℚ} {s : String}
    (hs : s ∈ warn_list t h g tx hx gx) :
    s = warnTempMsg t ∨ s = warnHumMsg h ∨ s = warnGasMsg g := by
  unfold warn_list at hs
  split_ifs at hs <;> simp_all <;> tauto

/-- When the temperature critical condition fired, no temperature warning
message can be in the warning list. -/
theorem warnTemp_not_mem_of_crit {t h g : PyVal} {tx hx gx : ℚ}
    (hct : 30 < tx ∨ tx < 10) (v : PyVal) :
    warnTempMsg v ∉ warn_list t h g tx hx gx := by
  intro hmem
  unfold warn_list at hmem
  rw [if_neg (show ¬(¬(30 < tx ∨ tx < 10) ∧ (26 < tx ∨ tx < 18)) by tauto),
    List.nil_append] at hmem
  rcases List.mem_append.mp hmem with hB | hC
  · split_ifs at hB
    · exact warnTemp_ne_warnHum v h (List.mem_singleton.mp hB)
    · exact absurd hB (List.not_mem_nil _)
  · split_ifs at hC
    · exact warnTemp_ne_warnGas v g (List.mem_singleton.mp hC)
    · exact absurd hC (List.not_mem_nil _)

/-- When the temperature critical condition did not fire, no critical
temperature message can be in the critical list. -/
theorem critTemp_not_mem_of_not_crit {t h g : PyVal} {tx hx gx : ℚ}
    (hct : ¬(30 < tx ∨ tx < 10)) (v : PyVal) :
    critTempMsg v ∉ crit_list t h g tx hx gx := by
  intro hmem
  unfold crit_list at hmem
  rw [if_neg hct, List.nil_append] at hmem
  rcases List.mem_append.mp hmem with hB | hC
  · split_ifs at hB
    · exact critTemp_ne_critHum v h (List.mem_singleton.mp hB)
    · exact absurd hB (List.not_mem_nil _)
  · split_ifs at hC
    · exact critTemp_ne_critGas v g (List.mem_singleton.mp hC)
    · exact absurd hC (List.not_mem_nil _)

/-- When the humidity critical condition fired, no humidity warning message
can be in the warning list. -/
theorem warnHum_not_mem_of_crit {t h g : PyVal} {tx hx gx : ℚ}
    (hct : 70 < hx ∨ hx < 20) (v : PyVal) :
    warnHumMsg v ∉ warn_list t h g tx hx gx := by
  intro hmem
  unfold warn_list at hmem
  rcases List.mem_append.mp hmem with hAB | hC
  · rcases List.mem_append.mp hAB with hA | hB
    · split_ifs at hA
      · exact (warnTemp_ne_warnHum t v).symm (List.mem_singleton.mp hA)
      · exact absurd hA (List.not_mem_nil _)
    · rw [if_neg (show ¬(¬(70 < hx ∨ hx < 20) ∧ (60 < hx ∨ hx < 30)) by tauto)] at hB
      exact absurd hB (List.not_mem_nil _)
  · split_ifs at hC
    · exact warnHum_ne_warnGas v g (List.mem_singleton.mp hC)
    · exact absurd hC (List.not_mem_nil _)

/-- When the humidity critical condition did not fire, no critical humidity
message can be in the critical list. -/
theorem critHum_not_mem_of_not_crit {t h g : PyVal} {tx hx gx : ℚ}
    (hct : ¬(70 < hx ∨ hx < 20)) (v : PyVal) :
    critHumMsg v ∉ crit_list t h g tx hx gx := by
  intro hmem
  unfold crit_list at hmem
  rcases List.mem_append.mp hmem with hAB | hC
  · rcases List.mem_append.mp hAB with hA | hB
    · split_ifs at hA
      · exact (critTemp_ne_critHum t v).symm (List.mem_singleton.mp hA)
      · exact absurd hA (List.not_mem_nil _)
    · rw [if_neg hct] at hB
      exact absurd hB (List.not_mem_nil _)
  · split_ifs at hC
    · exact critHum_ne_critGas v g (List.mem_singleton.mp hC)
    · exact absurd hC (List.not_mem_nil _)

/-- When the gas critical condition fired, no gas warning message can be in
the warning list. -/
theorem warnGas_not_mem {t h g : PyVal} {tx hx gx : ℚ}
    (hw : ¬(500 < gx)) (v : PyVal) :
    warnGasMsg v ∉ warn_list t h g tx hx gx := by
  intro hmem
  unfold warn_list at hmem
  rcases List.mem_append.mp hmem with hAB | hC
  · rcases List.mem_append.mp hAB with hA | hB
    · split_ifs at hA
      · exact (warnTemp_ne_warnGas t v).symm (List.mem_singleton.mp hA)
      · exact absurd hA (List.not_mem_nil _)
    · split_ifs at hB
      · exact (warnHum_ne_warnGas h v).symm (List.mem_singleton.mp hB)
      · exact absurd hB (List.not_mem_nil _)
  · rw [if_neg (show ¬(¬(800 < gx) ∧ 500 < gx) by tauto)] at hC
    exact absurd hC (List.not_mem_nil _)

/-- When the gas critical condition did not fire, no critical gas message
can be in the critical list. -/
theorem critGas_not_mem {t h g : PyVal} {tx hx gx : ℚ}
    (hct : ¬(800 < gx)) (v : PyVal) :
    critGasMsg v ∉ crit_list t h g tx hx gx := by
  intro hmem
  unfold crit_list at hmem
  rcases List.mem_append.mp hmem with hAB | hC
  · rcases List.mem_append.mp hAB with hA | hB
    · split_ifs at hA
      · exact (critTemp_ne_critGas t v).symm (List.mem_singleton.mp hA)
      · exact absurd hA (List.not_mem_nil _)
    · split_ifs at hB
      · exact (critHum_ne_critGas h v).symm (List.mem_singleton.mp hB)
      · exact absurd hB (List.not_mem_nil _)
  · rw [if_neg hct] at hC
    exact absurd hC (List.not_mem_nil _)

/-- A gas warning message cannot appear in the warning list when the gas
critical condition fired. -/
theorem warnGas_not_mem_of_crit {t h g : PyVal} {tx hx gx : ℚ}
    (hct : 800 < gx) (v : PyVal) :
    warnGasMsg v ∉ warn_list t h g tx hx gx := by
  intro hmem
  unfold warn_list at hmem
  rcases List.mem_append.mp hmem with hAB | hC
  · rcases List.mem_append.mp hAB with hA | hB
    · split_ifs at hA
      · exact (warnTemp_ne_warnGas t v).symm (List.mem_singleton.mp hA)
      · exact absurd hA (List.not_mem_nil _)
    · split_ifs at hB
      · exact (warnHum_ne_warnGas h v).symm (List.mem_singleton.mp hB)
      · exact absurd hB (List.not_mem_nil _)
  · rw [if_neg (show ¬(¬(800 < gx) ∧ 500 < gx) by tauto)] at hC
    exact absurd hC (List.not_mem_nil _)

/-- Splitting a prefix shows that a name occurring inside it, and the
rendered value, are both substrings of a prefix-value-suffix message. -/
theorem embeds_in_msg (pre suf name l r : String) (v : PyVal)
    (hsplit : l.data ++ name.data ++ r.data = pre.data) :
    name.data <:+: (pre ++ pyStrOf v ++ suf).data ∧
    (pyStrOf v).data <:+: (pre ++ pyStrOf v ++ suf).data := by
  constructor
  · refine ⟨l.data, r.data ++ (pyStrOf v).data ++ suf.data, ?_⟩
    rw [String.data_append, String.data_append, ← hsplit]
    simp [List.append_assoc]
  · refine ⟨pre.data, suf.data, ?_⟩
    rw [String.data_append, String.data_append]

/-- Sample reading with a Unix-epoch timestamp and safe metric values. -/
def sample_unix_reading : PyDict :=
  [("timestamp", PyVal.int 2000000000), ("temperature", PyVal.int 22),
   ("humidity", PyVal.int 45), ("gas_ppm", PyVal.int 100)]

/-- Sample reading without a timestamp, used for the staleness fallback. -/
def sample_no_ts_reading : PyDict :=
  [("temperature", PyVal.int 22), ("humidity", PyVal.int 45),
   ("gas_ppm", PyVal.int 100)]

/-- C1: the aggregator analyze_data returns UNKNOWN for absent data, OFFLINE
for a present reading the staleness detector rejects at its fixed default
timeout of 30 seconds, and otherwise exactly the result of the threshold
classifier.  This is the claim amended in two ways forced by
C1_counterexample: the reason strings are the ones in the code
("No data available" and "Sensor not responding - simulator may be
stopped"), and the timeout is not a parameter of the aggregator: it is
always the default 30 seconds. -/
theorem C1_aggregator_dispatch (now : ℤ) (data : Option PyDict) :
    (truthy data = false →
      analyze_data now data = .ok ("UNKNOWN", "No data available", "gray")) ∧
    (truthy data = true → is_sensor_online now data = false →
      analyze_data now data =
        .ok ("OFFLINE", "Sensor not responding - simulator may be stopped", "gray")) ∧
    (∀ d, data = some d → truthy data = true → is_sensor_online now data = true →
      analyze_data now data = classify d) := by
  refine ⟨?_, ?_, ?_⟩
  · intro h
    cases data with
    | none => rfl
    | some d =>
      have hde : d.isEmpty = true := by simpa [truthy] using h
      simp [analyze_data, hde]
  · intro ht hoff
    cases data with
    | none => simp [truthy] at ht
    | some d =>
      have hne : d.isEmpty = false := by simpa [truthy] using ht
      exact analyze_data_offline hne hoff
  · intro d hd ht hon
    subst hd
    have hne : d.isEmpty = false := by simpa [truthy] using ht
    exact analyze_data_online hne hon

/-- C1 witness: the dispatch theorem applied to the absent reading. -/
theorem C1_aggregator_dispatch_witness :
    analyze_data 0 none = .ok ("UNKNOWN", "No data available", "gray") :=
  (C1_aggregator_dispatch 0 none).1 rfl

/-- C1 counterexample: the reason string for absent data is
"No data available", not "no data available"; and at a timeout of 100
seconds the claim would require the 60 second old reading to be delegated
to the classifier (SAFE), but analyze_data ignores the timeout parameter
and reports OFFLINE. -/
theorem C1_counterexample :
    (analyze_data 0 none = .ok ("UNKNOWN", "No data available", "gray") ∧
      "No data available" ≠ "no data available") ∧
    (is_sensor_online 2000000060 (some sample_unix_reading) (.int 100) = true ∧
      classify sample_unix_reading =
        .ok ("SAFE", "All parameters within safe range", "green") ∧
      analyze_data 2000000060 (some sample_unix_reading) =
        .ok ("OFFLINE", "Sensor not responding - simulator may be stopped", "gray") ∧
      analyze_data 2000000060 (some sample_unix_reading) ≠
        classify sample_unix_reading) := by
  exact ⟨⟨by decide, by decide⟩, by decide, by decide, by decide, by decide⟩

/-- C4: the staleness detector is false on absent data; with a numeric
timestamp above 1000000000 it is online exactly when now - timestamp is at
most the timeout (so a future timestamp, giving negative age, passes); with
a numeric timestamp at most 1000000000 it is online unconditionally; and
with no timestamp field it is online exactly when a temperature or humidity
field is present. -/
theorem C4_staleness_detector (now : ℤ) (data : Option PyDict) (timeout : ℤ) :
    (truthy data = false → is_sensor_online now data (.int timeout) = false) ∧
    (∀ d, data = some d → truthy data = true →
      (∀ ts : ℚ, hasKey d "timestamp" = true →
        toRatVal (pyGet d "timestamp" (.int 0)) = some ts →
        ((1000000000 : ℚ) < ts →
          (is_sensor_online now data (.int timeout) = true ↔
            (now : ℚ) - ts ≤ (timeout : ℚ))) ∧
        (ts ≤ 1000000000 → is_sensor_online now data (.int timeout) = true)) ∧
      (hasKey d "timestamp" = false →
        (is_sensor_online now data (.int timeout) = true ↔
          (hasKey d "temperature" || hasKey d "humidity") = true))) := by
  constructor
  · intro h
    cases data with
    | none => rfl
    | some d =>
      have hde : d.isEmpty = true := by simpa [truthy] using h
      simp [is_sensor_online, hde]
  · intro d hd htr
    subst hd
    have hne : d.isEmpty = false := by simpa [truthy] using htr
    constructor
    · intro ts hk hts
      constructor
      · intro h9
        rw [is_sensor_online_ts hne hk hts, if_pos h9]
        exact decide_eq_true_iff
      · intro h9
        rw [is_sensor_online_ts hne hk hts, if_neg (not_lt.mpr h9)]
    · intro hk
      rw [is_sensor_online_no_ts (.int timeout) hne hk]
  
/-- C4 witness: a 60 second old Unix-epoch reading against a 30 second
timeout, where the age comparison decides the result. -/
theorem C4_staleness_detector_witness :
    is_sensor_online 2000000060 (some sample_unix_reading) (.int 30) = true ↔
      (2000000060 : ℚ) - 2000000000 ≤ (30 : ℚ) :=
  (((C4_staleness_detector 2000000060 (some sample_unix_reading) 30).2
    sample_unix_reading rfl (by decide)).1 2000000000 (by decide) (by decide)).1
    (by decide)

/-- C5: the staleness detector is a total function (it cannot raise), and
whenever its try-block body fails on a present reading, the bare except
returns true: it fails open toward online. -/
theorem C5_fail_open (now : ℤ) (d : PyDict) (timeout : PyVal) (e : PyErr)
    (hne : d.isEmpty = false) (herr : isOnlineBody now d timeout = .error e) :
    is_sensor_online now (some d) timeout = true := by
  simp [is_sensor_online, hne, herr]

/-- C5 witness: a reading whose timestamp is a string makes the body raise
TypeError, and the detector still answers true. -/
theorem C5_fail_open_witness :
    is_sensor_online 0 (some [("timestamp", PyVal.str "boot")]) (.int 30) = true :=
  C5_fail_open 0 [("timestamp", PyVal.str "boot")] (.int 30) .typeError
    (by decide) (by decide)

/-- C6 counterexample: a wrong-typed (string) temperature value makes the
classifier raise TypeError; analyze_data has no exception handler around
the threshold comparisons, so the claim that wrong-typed fields never cause
a failure is false. -/
theorem C6_counterexample :
    analyze_data 0 (some [("temperature", PyVal.str "hot")]) =
      .error .typeError := by decide

/-- C6 (amended): the classifier never raises when the metric fields that
are present are numeric; missing numeric metric fields are coerced to the
int 0 before the threshold checks, and a missing motion boolean is coerced
to False.  A wrong-typed (string) metric value, however, raises TypeError,
as C6_counterexample shows. -/
theorem C6_missing_fields_coerced (now : ℤ) (d : PyDict) (tx hx gx : ℚ)
    (ht : toRatVal (tempVal d) = some tx) (hh : toRatVal (humVal d) = some hx)
    (hg : toRatVal (gasVal d) = some gx) :
    (∃ r, analyze_data now (some d) = .ok r) ∧
    (hasKey d "temperature" = false → tempVal d = .int 0) ∧
    (hasKey d "humidity" = false → humVal d = .int 0) ∧
    (hasKey d "gas_ppm" = false → gasVal d = .int 0) ∧
    (hasKey d "motion_detected" = false →
      pyGet d "motion_detected" (.bool false) = .bool false) := by
  refine ⟨?_, fun h => pyGet_of_not_hasKey _ h, fun h => pyGet_of_not_hasKey _ h,
    fun h => pyGet_of_not_hasKey _ h, fun h => pyGet_of_not_hasKey _ h⟩
  by_cases hde : d.isEmpty = true
  · exact ⟨("UNKNOWN", "No data available", "gray"), by simp [analyze_data, hde]⟩
  · have hne : d.isEmpty = false := by simpa using hde
    cases hon : is_sensor_online now (some d) with
    | false => exact ⟨_, analyze_data_offline hne hon⟩
    | true => exact ⟨_, by rw [analyze_data_online hne hon, classify_num ht hh hg]⟩

/-- C6 witness: a reading with only a humidity field is classified without
an exception and all other fields are coerced to their defaults. -/
theorem C6_missing_fields_coerced_witness :
    (∃ r, analyze_data 0 (some [("humidity", PyVal.int 45)]) = .ok r) ∧
    (hasKey [("humidity", PyVal.int 45)] "temperature" = false →
      tempVal [("humidity", PyVal.int 45)] = .int 0) ∧
    (hasKey [("humidity", PyVal.int 45)] "humidity" = false →
      humVal [("humidity", PyVal.int 45)] = .int 0) ∧
    (hasKey [("humidity", PyVal.int 45)] "gas_ppm" = false →
      gasVal [("humidity", PyVal.int 45)] = .int 0) ∧
    (hasKey [("humidity", PyVal.int 45)] "motion_detected" = false →
      pyGet [("humidity", PyVal.int 45)] "motion_detected" (.bool false) = .bool false) :=
  C6_missing_fields_coerced 0 [("humidity", PyVal.int 45)] 0 45 0
    (by decide) (by decide) (by decide)

/-- C8 counterexample: analyze_data depends on the wall clock, state outside
the reading and timeout: the same reading evaluates SAFE at one instant and
OFFLINE 100 seconds later, so evaluate is not a function of the reading and
timeout alone. -/
theorem C8_counterexample :
    analyze_data 2000000000 (some sample_unix_reading) =
      .ok ("SAFE", "All parameters within safe range", "green") ∧
    analyze_data 2000000100 (some sample_unix_reading) =
      .ok ("OFFLINE", "Sensor not responding - simulator may be stopped", "gray") ∧
    analyze_data 2000000000 (some sample_unix_reading) ≠
      analyze_data 2000000100 (some sample_unix_reading) := by
  exact ⟨by decide, by decide, by decide⟩

/-- C8 (amended): analyze_data is deterministic given the reading and the
clock instant, and the clock enters only through the staleness decision:
two evaluations of the same reading at instants where the staleness
detector agrees give identical results. -/
theorem C8_deterministic_given_clock (n1 n2 : ℤ) (data : Option PyDict)
    (h : is_sensor_online n1 data = is_sensor_online n2 data) :
    analyze_data n1 data = analyze_data n2 data := by
  cases data with
  | none => rfl
  | some d =>
    unfold analyze_data
    dsimp only
    rw [h]

/-- C8 witness: a reading without a timestamp is online at any instant, so
evaluations at different instants agree. -/
theorem C8_deterministic_given_clock_witness :
    analyze_data 5 (some sample_no_ts_reading) =
      analyze_data 7 (some sample_no_ts_reading) :=
  C8_deterministic_given_clock 5 7 (some sample_no_ts_reading) (by decide)

/-- Sample reading with a critical temperature and a humidity in the
warning band. -/
def c2_sample : PyDict :=
  [("temperature", PyVal.int 35), ("humidity", PyVal.int 65),
   ("gas_ppm", PyVal.int 100)]

/-- C2: on a present, online, well-typed reading, if any critical condition
holds the aggregator reports CRITICAL with exactly the critical reason
strings joined in metric order temperature, humidity, gas; every entry of
that list is one of the three critical messages and no entry equals any
warning message, even when a warning condition holds simultaneously on
another metric.  If no critical condition holds but a warning condition
does, the tier is WARNING with the warning reasons in the same metric
order; otherwise the tier is SAFE with the single fixed message. -/
theorem C2_critical_priority (now : ℤ) (d : PyDict) (tx hx gx : ℚ)
    (ht : toRatVal (tempVal d) = some tx) (hh : toRatVal (humVal d) = some hx)
    (hg : toRatVal (gasVal d) = some gx)
    (hne : d.isEmpty = false) (hon : is_sensor_online now (some d) = true) :
    (((30 < tx ∨ tx < 10) ∨ (70 < hx ∨ hx < 20) ∨ 800 < gx →
      analyze_data now (some d) =
        .ok ("CRITICAL",
          String.intercalate " | "
            (crit_list (tempVal d) (humVal d) (gasVal d) tx hx gx), "red") ∧
      (∀ s ∈ crit_list (tempVal d) (humVal d) (gasVal d) tx hx gx,
        s = critTempMsg (tempVal d) ∨ s = critHumMsg (humVal d) ∨
          s = critGasMsg (gasVal d)) ∧
      (∀ s ∈ crit_list (tempVal d) (humVal d) (gasVal d) tx hx gx, ∀ v : PyVal,
        s ≠ warnTempMsg v ∧ s ≠ warnHumMsg v ∧ s ≠ warnGasMsg v))) ∧
    (¬((30 < tx ∨ tx < 10) ∨ (70 < hx ∨ hx < 20) ∨ 800 < gx) →
      (((26 < tx ∨ tx < 18) ∨ (60 < hx ∨ hx < 30) ∨ 500 < gx) →
        analyze_data now (some d) =
          .ok ("WARNING",
            String.intercalate " | "
              (warn_list (tempVal d) (humVal d) (gasVal d) tx hx gx), "orange")) ∧
      (¬((26 < tx ∨ tx < 18) ∨ (60 < hx ∨ hx < 30) ∨ 500 < gx) →
        analyze_data now (some d) =
          .ok ("SAFE", "All parameters within safe range", "green"))) := by
  have hana : analyze_data now (some d) =
      .ok (status_of (crit_list (tempVal d) (humVal d) (gasVal d) tx hx gx,
        warn_list (tempVal d) (humVal d) (gasVal d) tx hx gx)) := by
    rw [analyze_data_online hne hon, classify_num ht hh hg]
  constructor
  · intro hcrit
    have hcne : crit_list (tempVal d) (humVal d) (gasVal d) tx hx gx ≠ [] := by
      intro hnil
      exact crit_list_eq_nil_iff.mp hnil hcrit
    refine ⟨?_, fun s hs => mem_crit_list hs, ?_⟩
    · rw [hana, status_of_crit hcne]
    · intro s hs v
      rcases mem_crit_list hs with rfl | rfl | rfl
      · exact ⟨critTemp_ne_warnTemp _ v, critTemp_ne_warnHum _ v, critTemp_ne_warnGas _ v⟩
      · exact ⟨critHum_ne_warnTemp _ v, critHum_ne_warnHum _ v, critHum_ne_warnGas _ v⟩
      · exact ⟨critGas_ne_warnTemp _ v, critGas_ne_warnHum _ v, critGas_ne_warnGas _ v⟩
  · intro hncrit
    have hcnil : crit_list (tempVal d) (humVal d) (gasVal d) tx hx gx = [] :=
      crit_list_eq_nil_iff.mpr hncrit
    constructor
    · intro hwarn
      have hwne : warn_list (tempVal d) (humVal d) (gasVal d) tx hx gx ≠ [] := by
        intro hnil
        apply warn_list_eq_nil_iff.mp hnil
        rcases hwarn with hw1 | hw2 | hw3
        · exact Or.inl ⟨fun hcon => hncrit (Or.inl hcon), hw1⟩
        · exact Or.inr (Or.inl ⟨fun hcon => hncrit (Or.inr (Or.inl hcon)), hw2⟩)
        · exact Or.inr (Or.inr ⟨fun hcon => hncrit (Or.inr (Or.inr hcon)), hw3⟩)
      rw [hana, status_of_warn hcnil hwne]
    · intro hnwarn
      have hwnil : warn_list (tempVal d) (humVal d) (gasVal d) tx hx gx = [] := by
        apply warn_list_eq_nil_iff.mpr
        rintro (⟨hx1, h1⟩ | ⟨hx2, h1⟩ | ⟨hx3, h1⟩)
        · exact hnwarn (Or.inl h1)
        · exact hnwarn (Or.inr (Or.inl h1))
        · exact hnwarn (Or.inr (Or.inr h1))
      rw [hana, status_of_safe hcnil hwnil]

set_option maxHeartbeats 1000000 in
/-- C2 witness: temperature 35 is critical while humidity 65 is in the
warning band; the report is CRITICAL and contains no warning entry. -/
theorem C2_critical_priority_witness :
    analyze_data 0 (some c2_sample) =
      .ok ("CRITICAL",
        String.intercalate " | "
          (crit_list (tempVal c2_sample) (humVal c2_sample) (gasVal c2_sample)
            35 65 100), "red") ∧
    (∀ s ∈ crit_list (tempVal c2_sample) (humVal c2_sample) (gasVal c2_sample)
        35 65 100,
      s = critTempMsg (tempVal c2_sample) ∨ s = critHumMsg (humVal c2_sample) ∨
        s = critGasMsg (gasVal c2_sample)) ∧
    (∀ s ∈ crit_list (tempVal c2_sample) (humVal c2_sample) (gasVal c2_sample)
        35 65 100, ∀ v : PyVal,
      s ≠ warnTempMsg v ∧ s ≠ warnHumMsg v ∧ s ≠ warnGasMsg v) :=
  (C2_critical_priority 0 c2_sample 35 65 100 (by decide) (by decide) (by decide)
    (by decide) (by decide)).1 (by norm_num)

/-- Boundary reading: a fresh Unix-epoch timestamp with the given
temperature and safe humidity and gas. -/
def c3_reading (t : PyVal) : PyDict :=
  [("timestamp", PyVal.int 2000000000), ("temperature", t),
   ("humidity", PyVal.int 45), ("gas_ppm", PyVal.int 100)]

/-- C3: threshold boundaries are exclusive: temperature 30 is not critical
(it is a warning, since 30 > 26) while 30.01 is critical; 26 fires no
warning (SAFE) while 26.01 does; and per metric at most one of critical or
warning fires, with the critical check taking priority. -/
theorem C3_boundaries :
    analyze_data 2000000000 (some (c3_reading (.int 30))) =
      .ok ("WARNING", "Temperature Warning: 30¬∞C", "orange") ∧
    analyze_data 2000000000 (some (c3_reading (.float (mkRat 3001 100)))) =
      .ok ("CRITICAL", "Critical Temperature: 30.01¬∞C", "red") ∧
    analyze_data 2000000000 (some (c3_reading (.int 26))) =
      .ok ("SAFE", "All parameters within safe range", "green") ∧
    analyze_data 2000000000 (some (c3_reading (.float (mkRat 2601 100)))) =
      .ok ("WARNING", "Temperature Warning: 26.01¬∞C", "orange") ∧
    (∀ (t h g : PyVal) (tx hx gx : ℚ),
      toRatVal t = some tx → toRatVal h = some hx → toRatVal g = some gx →
      ∀ c w, checks t h g = .ok (c, w) →
        ¬(critTempMsg t ∈ c ∧ warnTempMsg t ∈ w) ∧
        ¬(critHumMsg h ∈ c ∧ warnHumMsg h ∈ w) ∧
        ¬(critGasMsg g ∈ c ∧ warnGasMsg g ∈ w)) := by
  refine ⟨by decide, by decide, by decide, by decide, ?_⟩
  intro t h g tx hx gx ht hh hg c w hcw
  rw [checks_num ht hh hg] at hcw
  injection hcw with hpair
  cases hpair
  refine ⟨?_, ?_, ?_⟩
  · rintro ⟨hsc, hsw⟩
    by_cases ct : (30 : ℚ) < tx ∨ tx < 10
    · exact warnTemp_not_mem_of_crit ct t hsw
    · exact critTemp_not_mem_of_not_crit ct t hsc
  · rintro ⟨hsc, hsw⟩
    by_cases chm : (70 : ℚ) < hx ∨ hx < 20
    · exact warnHum_not_mem_of_crit chm h hsw
    · exact critHum_not_mem_of_not_crit chm h hsc
  · rintro ⟨hsc, hsw⟩
    by_cases cg : (800 : ℚ) < gx
    · exact warnGas_not_mem_of_crit cg g hsw
    · exact critGas_not_mem cg g hsc

/-- C3 witness: the at-most-one law applied to a fully safe reading. -/
theorem C3_boundaries_witness :
    ¬(critTempMsg (PyVal.int 22) ∈ ([] : List String) ∧
      warnTempMsg (PyVal.int 22) ∈ ([] : List String)) :=
  (C3_boundaries.2.2.2.2 (.int 22) (.int 45) (.int 100) 22 45 100
    (by decide) (by decide) (by decide) [] [] (by decide)).1

/-- Reading with temperature 30.96, whose one-decimal rounding would be
31.0. -/
def c7_reading : PyDict :=
  [("timestamp", PyVal.int 2000000000),
   ("temperature", PyVal.float (mkRat 3096 100)),
   ("humidity", PyVal.int 45), ("gas_ppm", PyVal.int 100)]

/-- C7 counterexample: the reason string embeds the raw value 30.96, not
the value rounded to one decimal place (31.0): the digits 31 occur nowhere
in the produced string, while the raw 30.96 does. -/
theorem C7_counterexample :
    analyze_data 2000000000 (some c7_reading) =
      .ok ("CRITICAL", "Critical Temperature: 30.96¬∞C", "red") ∧
    ¬("31".data <:+: "Critical Temperature: 30.96¬∞C".data) ∧
    ("30.96".data <:+: "Critical Temperature: 30.96¬∞C".data) := by
  exact ⟨by decide, by decide, by decide⟩

/-- C7 (amended): every reason string produced by the threshold checks
embeds the metric name and the raw numeric value exactly as Python str()
renders it (no rounding); being produced by a pure function of the values,
the strings are deterministic and stable for the same inputs. -/
theorem C7_reasons_embed (t h g : PyVal) (tx hx gx : ℚ)
    (ht : toRatVal t = some tx) (hh : toRatVal h = some hx)
    (hg : toRatVal g = some gx)
    (c w : List String) (hcw : checks t h g = .ok (c, w)) :
    ∀ s ∈ c ++ w, ∃ name val : String,
      ((name = "Temperature" ∧ val = pyStrOf t) ∨
       (name = "Humidity" ∧ val = pyStrOf h) ∨
       (name = "Gas" ∧ val = pyStrOf g)) ∧
      name.data <:+: s.data ∧ val.data <:+: s.data := by
  rw [checks_num ht hh hg] at hcw
  injection hcw with hpair
  cases hpair
  intro s hs
  rcases List.mem_append.mp hs with hs | hs
  · rcases mem_crit_list hs with rfl | rfl | rfl
    · exact ⟨"Temperature", pyStrOf t, Or.inl ⟨rfl, rfl⟩,
        embeds_in_msg "Critical Temperature: " "¬∞C" "Temperature" "Critical " ": " t
          (by decide)⟩
    · exact ⟨"Humidity", pyStrOf h, Or.inr (Or.inl ⟨rfl, rfl⟩),
        embeds_in_msg "Critical Humidity: " "%" "Humidity" "Critical " ": " h
          (by decide)⟩
    · exact ⟨"Gas", pyStrOf g, Or.inr (Or.inr ⟨rfl, rfl⟩),
        embeds_in_msg "Dangerous Gas Level: " " ppm" "Gas" "Dangerous " " Level: " g
          (by decide)⟩
  · rcases mem_warn_list hs with rfl | rfl | rfl
    · exact ⟨"Temperature", pyStrOf t, Or.inl ⟨rfl, rfl⟩,
        embeds_in_msg "Temperature Warning: " "¬∞C" "Temperature" "" " Warning: " t
          (by decide)⟩
    · exact ⟨"Humidity", pyStrOf h, Or.inr (Or.inl ⟨rfl, rfl⟩),
        embeds_in_msg "Humidity Warning: " "%" "Humidity" "" " Warning: " h
          (by decide)⟩
    · exact ⟨"Gas", pyStrOf g, Or.inr (Or.inr ⟨rfl, rfl⟩),
        embeds_in_msg "Elevated Gas Level: " " ppm" "Gas" "Elevated " " Level: " g
          (by decide)⟩

/-- C7 witness: the critical temperature reason for the int 35 embeds the
name Temperature and the rendered value 35. -/
theorem C7_reasons_embed_witness :
    ∃ name val : String,
      ((name = "Temperature" ∧ val = pyStrOf (PyVal.int 35)) ∨
       (name = "Humidity" ∧ val = pyStrOf (PyVal.int 45)) ∨
       (name = "Gas" ∧ val = pyStrOf (PyVal.int 100))) ∧
      name.data <:+: "Critical Temperature: 35¬∞C".data ∧
      val.data <:+: "Critical Temperature: 35¬∞C".data :=
  C7_reasons_embed (.int 35) (.int 45) (.int 100) 35 45 100 (by decide) (by decide)
    (by decide) ["Critical Temperature: 35¬∞C"] [] (by decide)
    "Critical Temperature: 35¬∞C" (by decide)

/-- Reading with only humidity and gas fields, used for C10. -/
def c10_sample : PyDict := [("humidity", PyVal.int 45), ("gas_ppm", PyVal.int 100)]

/-- C10: a present, online, well-typed reading with no temperature field is
classified CRITICAL with a temperature reason for the defaulted value 0
(below the low bound 10); one with no humidity field is CRITICAL likewise
(0 is below the low bound 20); and with no gas field the defaulted gas 0
contributes neither a critical nor a warning gas reason, so only the
missing gas field is implicitly safe. -/
theorem C10_missing_metric_defaults (now : ℤ) (d : PyDict) (tx hx gx : ℚ)
    (ht : toRatVal (tempVal d) = some tx) (hh : toRatVal (humVal d) = some hx)
    (hg : toRatVal (gasVal d) = some gx)
    (hne : d.isEmpty = false) (hon : is_sensor_online now (some d) = true) :
    (hasKey d "temperature" = false →
      (∃ m : String, analyze_data now (some d) = .ok ("CRITICAL", m, "red")) ∧
      critTempMsg (.int 0) ∈ crit_list (tempVal d) (humVal d) (gasVal d) tx hx gx) ∧
    (hasKey d "humidity" = false →
      (∃ m : String, analyze_data now (some d) = .ok ("CRITICAL", m, "red")) ∧
      critHumMsg (.int 0) ∈ crit_list (tempVal d) (humVal d) (gasVal d) tx hx gx) ∧
    (hasKey d "gas_ppm" = false → ∀ v : PyVal,
      critGasMsg v ∉ crit_list (tempVal d) (humVal d) (gasVal d) tx hx gx ∧
      warnGasMsg v ∉ warn_list (tempVal d) (humVal d) (gasVal d) tx hx gx) := by
  have hana : analyze_data now (some d) =
      .ok (status_of (crit_list (tempVal d) (humVal d) (gasVal d) tx hx gx,
        warn_list (tempVal d) (humVal d) (gasVal d) tx hx gx)) := by
    rw [analyze_data_online hne hon, classify_num ht hh hg]
  refine ⟨?_, ?_, ?_⟩
  · intro hk
    have htv : tempVal d = .int 0 := pyGet_of_not_hasKey _ hk
    have htx : tx = 0 := by
      rw [htv] at ht
      rw [show toRatVal (PyVal.int 0) = some (0 : ℚ) by decide] at ht
      exact (Option.some.inj ht).symm
    subst htx
    have h010 : (30 : ℚ) < 0 ∨ (0 : ℚ) < 10 := Or.inr (by norm_num)
    have hcne : crit_list (tempVal d) (humVal d) (gasVal d) 0 hx gx ≠ [] := by
      intro hnil
      exact crit_list_eq_nil_iff.mp hnil (Or.inl h010)
    constructor
    · exact ⟨String.intercalate " | "
        (crit_list (tempVal d) (humVal d) (gasVal d) 0 hx gx),
        by rw [hana, status_of_crit hcne]⟩
    · unfold crit_list
      rw [if_pos h010, htv]
      simp
  · intro hk
    have hhv : humVal d = .int 0 := pyGet_of_not_hasKey _ hk
    have hhx : hx = 0 := by
      rw [hhv] at hh
      rw [show toRatVal (PyVal.int 0) = some (0 : ℚ) by decide] at hh
      exact (Option.some.inj hh).symm
    subst hhx
    have h020 : (70 : ℚ) < 0 ∨ (0 : ℚ) < 20 := Or.inr (by norm_num)
    have hcne : crit_list (tempVal d) (humVal d) (gasVal d) tx 0 gx ≠ [] := by
      intro hnil
      exact crit_list_eq_nil_iff.mp hnil (Or.inr (Or.inl h020))
    constructor
    · exact ⟨String.intercalate " | "
        (crit_list (tempVal d) (humVal d) (gasVal d) tx 0 gx),
        by rw [hana, status_of_crit hcne]⟩
    · unfold crit_list
      rw [if_pos h020, hhv]
      simp
  · intro hk v
    have hgv : gasVal d = .int 0 := pyGet_of_not_hasKey _ hk
    have hgx : gx = 0 := by
      rw [hgv] at hg
      rw [show toRatVal (PyVal.int 0) = some (0 : ℚ) by decide] at hg
      exact (Option.some.inj hg).symm
    subst hgx
    exact ⟨critGas_not_mem (by norm_num) v, warnGas_not_mem (by norm_num) v⟩

/-- C10 witness: a reading with only humidity and gas is CRITICAL with a
temperature reason for the default 0. -/
theorem C10_missing_metric_defaults_witness :
    (∃ m : String, analyze_data 0 (some c10_sample) = .ok ("CRITICAL", m, "red")) ∧
    critTempMsg (PyVal.int 0) ∈
      crit_list (tempVal c10_sample) (humVal c10_sample) (gasVal c10_sample)
        0 45 100 :=
  (C10_missing_metric_defaults 0 c10_sample 0 45 100 (by decide) (by decide)
    (by decide) (by decide) (by decide)).1 (by decide)

/-- Store in which the fetch for sensor_node_02 raises and every other
device returns a safe reading. -/
def broken_store : String → Except PyErr (Option PyDict) := fun device_id =>
  if device_id == "sensor_node_02" then .error .typeError
  else .ok (some sample_no_ts_reading)

/-- C9 counterexample: when one device fetch of the all-labs summary fails,
that device is shown OFFLINE, not UNKNOWN as the claim states; the other
two devices still get their correct tiers. -/
theorem C9_counterexample :
    all_labs_status broken_store 0
      ["sensor_node_01", "sensor_node_02", "sensor_node_03"] =
      .ok [("sensor_node_01", "SAFE"), ("sensor_node_02", "OFFLINE"),
        ("sensor_node_03", "SAFE")] ∧
    ("OFFLINE" : String) ≠ "UNKNOWN" := by
  exact ⟨by decide, by decide⟩

/-- C9 (amended): a fetch failure for one device in the summary degrades
only that device, which is labelled OFFLINE (get_latest_data catches the
exception and returns None, and the sidebar shows a falsy reading as
OFFLINE); the other devices are evaluated independently and keep their
correct tiers. -/
theorem C9_partial_failure_isolation (store : String → Except PyErr (Option PyDict))
    (now : ℤ) (a b c : String) (e : PyErr) (dA dC : PyDict)
    (rA rC : String × String × String)
    (hb : store b = .error e) (ha : store a = .ok (some dA))
    (hc : store c = .ok (some dC))
    (hta : truthy (some dA) = true) (htc : truthy (some dC) = true)
    (hra : analyze_data now (some dA) = .ok rA)
    (hrc : analyze_data now (some dC) = .ok rC) :
    all_labs_status store now [a, b, c] =
      .ok [(a, rA.1), (b, "OFFLINE"), (c, rC.1)] := by
  obtain ⟨sA, mA, cA⟩ := rA
  obtain ⟨sC, mC, cC⟩ := rC
  have hrowA : lab_row store now a = .ok (a, sA) := by
    unfold lab_row get_latest_data
    rw [ha]
    simp only [hta, if_true, hra, okBind]
    rfl
  have hrowB : lab_row store now b = .ok (b, "OFFLINE") := by
    unfold lab_row get_latest_data
    rw [hb]
    rfl
  have hrowC : lab_row store now c = .ok (c, sC) := by
    unfold lab_row get_latest_data
    rw [hc]
    simp only [htc, if_true, hrc, okBind]
    rfl
  unfold all_labs_status
  rw [List.mapM_cons, List.mapM_cons, List.mapM_cons, List.mapM_nil,
    hrowA, hrowB, hrowC]
  rfl

/-- C9 witness: the isolation theorem applied to the concrete broken
store. -/
theorem C9_partial_failure_isolation_witness :
    all_labs_status broken_store 0
      ["sensor_node_01", "sensor_node_02", "sensor_node_03"] =
      .ok [("sensor_node_01", "SAFE"), ("sensor_node_02", "OFFLINE"),
        ("sensor_node_03", "SAFE")] :=
  C9_partial_failure_isolation broken_store 0 "sensor_node_01" "sensor_node_02"
    "sensor_node_03" .typeError sample_no_ts_reading sample_no_ts_reading
    ("SAFE", "All parameters within safe range", "green")
    ("SAFE", "All parameters within safe range", "green")
    (by decide) (by decide) (by decide) (by decide) (by decide) (by decide)
    (by decide)

end SafeLabs
